import Mathlib

/-!
# SoftwareRenderer: the pipeline driver of `softwareRenderer.cpp`

A shallow embedding of `SoftwareRenderer` (startUp, createBuffers, clearBuffers,
buildTri, backFaceCulling, clipTriangles, perspectiveDivide, drawTriangularMesh).

`float` values are exact rationals: the development is about the comparisons and
the control flow of the driver, not about IEEE rounding, NaN or infinities.
-/

namespace SoftwareRenderer

/-! ## Data model -/

/-- The `Vector3f` of `vector3D.h`: three coordinates and the homogeneous `w`. -/
structure Vector3f where
  x : ℚ
  y : ℚ
  z : ℚ
  w : ℚ
  deriving DecidableEq, Repr

/-- The `Vector3i` of `vector3D.h`: `data[0..2]`, three signed indices. -/
structure Vector3i where
  d0 : Int
  d1 : Int
  d2 : Int
  deriving DecidableEq, Repr

/-- Read `index.data[i]` for `i = 0, 1, 2`. -/
def Vector3i.data (v : Vector3i) (i : Fin 3) : Int :=
  match i with
  | 0 => v.d0
  | 1 => v.d1
  | 2 => v.d2

/-- A C array `Vector3f prim[3]`. -/
structure Triangle where
  v0 : Vector3f
  v1 : Vector3f
  v2 : Vector3f
  deriving DecidableEq, Repr

/-- Read `prim[i]` for `i = 0, 1, 2`. -/
def Triangle.get (t : Triangle) (i : Fin 3) : Vector3f :=
  match i with
  | 0 => t.v0
  | 1 => t.v1
  | 2 => t.v2

/-- Write `prim[i] = v` for `i = 0, 1, 2`. -/
def Triangle.set (t : Triangle) (i : Fin 3) (v : Vector3f) : Triangle :=
  match i with
  | 0 => { t with v0 := v }
  | 1 => { t with v1 := v }
  | 2 => { t with v2 := v }

/-! ## clipTriangles -/

/-- The C++ conversion of a `bool` to a number: `true` is 1, `false` is 0. -/
def boolToFloat (b : Bool) : ℚ := if b then 1 else 0

/-- The C++ expression `a <= b <= c`: it parses as `(a <= b) <= c`, the inner
result being converted to 0 or 1 before the second comparison. -/
def chainedLe (a b c : ℚ) : Bool := decide (boolToFloat (decide (a ≤ b)) ≤ c)

/-- The `inside` flag computed in the body of the loop of `clipTriangles`. -/
def inside (vertex : Vector3f) : Bool :=
  chainedLe (-vertex.w) vertex.x vertex.w
    && chainedLe (-vertex.w) vertex.y vertex.w
    && chainedLe 0 vertex.z vertex.w

/-- One iteration of the loop of `clipTriangles`: `if (!inside) ++count`. -/
def clipStep (clipSpaceVertices : Triangle) (count : Int) (i : Fin 3) : Int :=
  if !inside (clipSpaceVertices.get i) then count + 1 else count

/-- `SoftwareRenderer::clipTriangles`: true when the triangle is to be skipped. -/
def clipTriangles (clipSpaceVertices : Triangle) : Bool :=
  let count := ([0, 1, 2] : List (Fin 3)).foldl (clipStep clipSpaceVertices) 0
  count == 3

/-- The frustum test in the words of the specification:
`-w ≤ x ≤ w`, `-w ≤ y ≤ w`, `0 ≤ z ≤ w`. -/
def insideFrustumSpec (v : Vector3f) : Bool :=
  decide (-v.w ≤ v.x ∧ v.x ≤ v.w ∧ -v.w ≤ v.y ∧ v.y ≤ v.w ∧ 0 ≤ v.z ∧ v.z ≤ v.w)

/-! ## Code of the repository that lies outside `softwareRenderer.cpp` -/

/-- A `Matrix4` of `matrix.h`: sixteen numbers. -/
abbrev Matrix4 := Fin 4 → Fin 4 → ℚ

/-- The `Camera` read through `mCamera`; only `position` is read by the code
modelled here (the two matrices go into the shader set-up). -/
structure Camera where
  position : Vector3f

/-- The operations the driver calls whose bodies are in headers that are not
part of the sources at hand; each is a parameter of the development.

* `matMultVec` is `Matrix4::matMultVec`;
* `inverse` is `Matrix4::inverse`;
* `normalizedReceiver v` is the state of the object `v` after the call
  `v.normalized()`, and `normalizedResult v` is the value the call returns;
* `vertex` is `NormalMapShader::vertex` of the shader configured at the start of
  `drawTriangularMesh` for the current model and camera. -/
structure Externals where
  matMultVec : Matrix4 → Vector3f → Vector3f
  inverse : Matrix4 → Matrix4
  normalizedReceiver : Vector3f → Vector3f
  normalizedResult : Vector3f → Vector3f
  vertex : Vector3f → Vector3f → Vector3f → Vector3f → Vector3f → Vector3f → Fin 3 → Vector3f

/-- Modelled from the spec: `Vector3f::operator-` (vector3D.h is not among the
sources): "camera position transformed into object space, minus the first
vertex", the difference of the three coordinates; the result is a direction
built from three coordinates, its `w` is 1. -/
def Vector3f.sub (a b : Vector3f) : Vector3f :=
  { x := a.x - b.x, y := a.y - b.y, z := a.z - b.z, w := 1 }

/-- Modelled from the spec: `Vector3f::dotProduct` (vector3D.h is not among the
sources): "the dot product of the face normal and view direction", over the
three coordinates. -/
def Vector3f.dotProduct (a b : Vector3f) : ℚ :=
  a.x * b.x + a.y * b.y + a.z * b.z

/-- Modelled from the spec: `Vector3f::perspectiveDivide` (vector3D.h is not
among the sources): "x/y/z components are divided by its w component"; `w` is
left as it is. -/
def Vector3f.perspectiveDivide (v : Vector3f) : Vector3f :=
  { x := v.x / v.w, y := v.y / v.w, z := v.z / v.w, w := v.w }

/-- A `std::vector<T>`: its elements, and `beyond`, what a read finds at an
offset that is no position of the vector. `operator[]` checks no bound, and C++
leaves such a read undefined; its outcome is a parameter here. -/
structure StdVector (α : Type) where
  elems : List α
  beyond : Int → α

/-- The `size()` of a vector. -/
def StdVector.size {α : Type} (v : StdVector α) : Nat := v.elems.length

/-- The expression `vals[i]`: `std::vector::operator[]`, unchecked. -/
def StdVector.subscript {α : Type} (v : StdVector α) (i : Int) : α :=
  if 0 ≤ i then (v.elems[i.toNat]?).getD (v.beyond i) else v.beyond i

/-- An index is a valid position of the vector. -/
def StdVector.validIndex {α : Type} (v : StdVector α) (i : Int) : Prop :=
  0 ≤ i ∧ i < (v.size : Int)

instance {α : Type} (v : StdVector α) (i : Int) : Decidable (v.validIndex i) := by
  unfold StdVector.validIndex
  infer_instance

/-! ## buildTri -/

/-- `SoftwareRenderer::buildTri`: `primitive[i] = vals[index.data[i]]` for
`i = 0, 1, 2`; the function returns the array it has written. -/
def buildTri (index : Vector3i) (primitive : Triangle) (vals : StdVector Vector3f) :
    Triangle :=
  ([0, 1, 2] : List (Fin 3)).foldl
    (fun prim i => prim.set i (vals.subscript (index.data i))) primitive

/-- The errors the specification names for the pipeline driver. -/
inductive PipelineError where
  | IndexOutOfRange
  deriving DecidableEq, Repr

/-- The gathering step in the words of the specification: the three values
found by index lookup, or `IndexOutOfRange` when an index is no position of
the array. -/
def buildTriSpec (index : Vector3i) (vals : StdVector Vector3f) :
    Except PipelineError Triangle :=
  if vals.validIndex index.d0 ∧ vals.validIndex index.d1 ∧ vals.validIndex index.d2 then
    .ok { v0 := vals.subscript index.d0
          v1 := vals.subscript index.d1
          v2 := vals.subscript index.d2 }
  else .error .IndexOutOfRange

/-! ## backFaceCulling -/

/-- `SoftwareRenderer::backFaceCulling`, with `mCamera` pointing to `camera`.
The statement `viewDir.normalized();` drops the returned value; what it leaves
in `viewDir` is `normalizedReceiver`. -/
def backFaceCulling (ext : Externals) (camera : Camera)
    (facetNormal vert : Vector3f) (worldToObject : Matrix4) : Bool :=
  let viewDir := (ext.matMultVec worldToObject camera.position).sub vert
  let viewDir := ext.normalizedReceiver viewDir
  let intensity := facetNormal.dotProduct viewDir
  decide (intensity ≤ 0)

/-! ## perspectiveDivide -/

/-- `SoftwareRenderer::perspectiveDivide`: the three vertices are divided. -/
def perspectiveDivide (clippedVertices : Triangle) : Triangle :=
  ([0, 1, 2] : List (Fin 3)).foldl
    (fun prim i => prim.set i (prim.get i).perspectiveDivide) clippedVertices

/-! ## drawTriangularMesh -/

/-- The fields of `Mesh` that `drawTriangularMesh` reads. -/
structure Mesh where
  numFaces : Int
  vertexIndices : StdVector Vector3i
  textureIndices : StdVector Vector3i
  normalsIndices : StdVector Vector3i
  fNormals : StdVector Vector3f
  vertices : StdVector Vector3f
  texels : StdVector Vector3f
  normals : StdVector Vector3f
  tangents : StdVector Vector3f
  biTangents : StdVector Vector3f

/-- The `Model` handed to `drawTriangularMesh`: its mesh and its model matrix. -/
structure Model where
  mesh : Mesh
  modelMatrix : Matrix4

/-- The five scratch arrays declared before the loop. -/
structure Scratch where
  trianglePrimitive : Triangle
  normalPrim : Triangle
  uvPrim : Triangle
  tangentPrim : Triangle
  biTangentPrim : Triangle

/-- What the loop of `drawTriangularMesh` changes: the counter, the scratch
arrays, and `drawn`, the triangles handed to `Rasterizer::drawTriangles`, in the
order of the calls. The rasterizer writes pixels only inside those calls. -/
structure DrawState where
  count : Int
  scratch : Scratch
  drawn : List Triangle

/-- The five `buildTri` calls of face `j`. -/
def gather (mesh : Mesh) (sc : Scratch) (j : Int) : Scratch :=
  let f := mesh.vertexIndices.subscript j
  let n := mesh.normalsIndices.subscript j
  let u := mesh.textureIndices.subscript j
  { trianglePrimitive := buildTri f sc.trianglePrimitive mesh.vertices
    normalPrim := buildTri n sc.normalPrim mesh.normals
    uvPrim := buildTri u sc.uvPrim mesh.texels
    tangentPrim := buildTri f sc.tangentPrim mesh.tangents
    biTangentPrim := buildTri f sc.biTangentPrim mesh.biTangents }

/-- The vertex-shader loop: `trianglePrimitive[i] = shader.vertex(...)`. -/
def applyVertexShader (ext : Externals) (lightDir : Vector3f) (sc : Scratch) : Triangle :=
  ([0, 1, 2] : List (Fin 3)).foldl
    (fun prim i =>
      prim.set i (ext.vertex (prim.get i) (sc.normalPrim.get i) (sc.uvPrim.get i)
        (sc.tangentPrim.get i) (sc.biTangentPrim.get i) lightDir i))
    sc.trianglePrimitive

/-- The body of the loop of `drawTriangularMesh` for face `j`. -/
def faceStep (ext : Externals) (camera : Camera) (mesh : Mesh)
    (worldToObject : Matrix4) (lightDir : Vector3f) (st : DrawState) (j : Int) :
    DrawState :=
  let sc := gather mesh st.scratch j
  if backFaceCulling ext camera (mesh.fNormals.subscript j) sc.trianglePrimitive.v0
      worldToObject then
    { st with scratch := sc }
  else
    let count := st.count + 1
    let shaded := applyVertexShader ext lightDir sc
    if clipTriangles shaded then
      { count := count, scratch := { sc with trianglePrimitive := shaded }, drawn := st.drawn }
    else
      let divided := perspectiveDivide shaded
      { count := count, scratch := { sc with trianglePrimitive := divided },
        drawn := st.drawn ++ [divided] }

/-- `SoftwareRenderer::drawTriangularMesh`, the faces taken in order, with
`mCamera` pointing to `camera` and `scratch` the initial contents of the scratch
arrays. The `count` of the result is the number printed by
`printf("%d faces drawn.\n", count)`. -/
def drawTriangularMesh (ext : Externals) (camera : Camera) (currentModel : Model)
    (scratch : Scratch) : DrawState :=
  let triMesh := currentModel.mesh
  let lightDir := ext.normalizedResult { x := 1, y := 0, z := 0, w := 1 }
  let worldToObject := ext.inverse currentModel.modelMatrix
  (List.range triMesh.numFaces.toNat).foldl
    (fun (st : DrawState) (j : Nat) =>
      faceStep ext camera triMesh worldToObject lightDir st (j : Int))
    { count := 0, scratch := scratch, drawn := [] }

/-! ## Buffers, createBuffers, startUp, clearBuffers -/

/-- A `Buffer<T>` of `buffer.h`: the two dimensions and the array it was built
around. -/
structure Buffer (α : Type) where
  mWidth : Int
  mHeight : Int
  buffer : List α

/-- Modelled from the spec: `Buffer<T>::clear` (buffer.h is not among the
sources): the "clear operation" that "resets color to a background value and
depth to the far sentinel"; every element becomes `clearValue`. -/
def Buffer.clear {α : Type} (b : Buffer α) (clearValue : α) : Buffer α :=
  { b with buffer := b.buffer.map (fun _ => clearValue) }

/-- Modelled from the spec: the read of the pixel at column `x` of row `y` of a
`Buffer<T>` (buffer.h is not among the sources), a "fixed-size row-major 2D
array"; no value outside the dimensions. -/
def Buffer.read {α : Type} (b : Buffer α) (x y : Int) : Option α :=
  if 0 ≤ x ∧ x < b.mWidth ∧ 0 ≤ y ∧ y < b.mHeight then
    b.buffer[(y * b.mWidth + x).toNat]?
  else none

/-- The data members of `SoftwareRenderer`; a pointer is an `Option`, `none`
being `nullptr`. -/
structure Renderer where
  startUpComplete : Bool
  zBuffer : Option (Buffer ℚ)
  pixelBuffer : Option (Buffer Nat)
  mCamera : Option Camera

/-- The exceptions a `new` expression throws. -/
inductive CppException where
  | bad_alloc
  | bad_array_new_length
  deriving DecidableEq, Repr

/-- The free store. `requests` tells, for the allocation requests to come, which
succeed (a request past the end of the list succeeds); `floatJunk` and
`uintJunk` are the indeterminate contents of a fresh array. -/
structure Heap where
  requests : List Bool
  floatJunk : Nat → ℚ
  uintJunk : Nat → Nat

/-- One call of the allocation function `operator new`: it returns storage or
throws `std::bad_alloc`; it does not return a null pointer. -/
def Heap.allocate (heap : Heap) : Except CppException Heap :=
  match heap.requests with
  | [] => .ok heap
  | true :: rest => .ok { heap with requests := rest }
  | false :: _ => .error .bad_alloc

/-- The expression `new T[n]`: a negative length throws
`std::bad_array_new_length`; the contents of the array are indeterminate. -/
def newArray {α : Type} (heap : Heap) (n : Int) (junk : Nat → α) :
    Except CppException (List α × Heap) :=
  if n < 0 then .error .bad_array_new_length
  else do
    let heap ← heap.allocate
    pure ((List.range n.toNat).map junk, heap)

/-- The expression `new Buffer<T>(w, h, new T[pixelCount])`: storage for the
object, then the array; the pointer it yields is never null. -/
def newBuffer {α : Type} (heap : Heap) (w h pixelCount : Int) (junk : Nat → α) :
    Except CppException (Option (Buffer α) × Heap) := do
  let heap ← heap.allocate
  let (arr, heap) ← newArray heap pixelCount junk
  pure (some { mWidth := w, mHeight := h, buffer := arr }, heap)

/-- `SoftwareRenderer::createBuffers`: the returned flag, the renderer and the
free store afterwards, or the exception that leaves the function. -/
def createBuffers (r : Renderer) (w h : Int) (heap : Heap) :
    Except CppException (Bool × Renderer × Heap) := do
  let pixelCount := w * h
  let success := true
  let (zb, heap) ← newBuffer heap w h pixelCount heap.floatJunk
  let r := { r with zBuffer := zb }
  if r.zBuffer.isNone then
    -- printf("Could not build z-Buffer.\n")
    pure (false, r, heap)
  else
    let (pb, heap) ← newBuffer heap w h pixelCount heap.uintJunk
    let r := { r with pixelBuffer := pb }
    if r.pixelBuffer.isNone then
      -- printf("Could not build pixel Buffer.\n")
      pure (false, r, heap)
    else
      pure (success, r, heap)

/-- `SoftwareRenderer::startUp`. -/
def startUp (r : Renderer) (w h : Int) (heap : Heap) :
    Except CppException (Bool × Renderer × Heap) := do
  let (ok, r, heap) ← createBuffers r w h heap
  if !ok then
    pure (false, r, heap)
  else
    pure (true, { r with startUpComplete := true }, heap)

/-- `SoftwareRenderer::clearBuffers`: `zBuffer->clear(); pixelBuffer->clear();`.
`farSentinel` and `background` are the values `Buffer<float>::clear` and
`Buffer<Uint32>::clear` store. No result when a pointer is null. -/
def clearBuffers (farSentinel : ℚ) (background : Nat) (r : Renderer) : Option Renderer :=
  match r.zBuffer with
  | none => none
  | some zb =>
    let r := { r with zBuffer := some (zb.clear farSentinel) }
    match r.pixelBuffer with
    | none => none
    | some pb => some { r with pixelBuffer := some (pb.clear background) }

/-- A vector of values with zeros in the memory around it. -/
def vectorOf (l : List Vector3f) : StdVector Vector3f :=
  { elems := l, beyond := fun _ => { x := 0, y := 0, z := 0, w := 0 } }

/-- A vector of index triples with zeros in the memory around it. -/
def indicesOf (l : List Vector3i) : StdVector Vector3i :=
  { elems := l, beyond := fun _ => { d0 := 0, d1 := 0, d2 := 0 } }

/-- A triangle of three equal vertices. -/
def Triangle.const (v : Vector3f) : Triangle := { v0 := v, v1 := v, v2 := v }

/-- Scratch arrays filled with zeros. -/
def zeroScratch : Scratch :=
  let z : Triangle := Triangle.const { x := 0, y := 0, z := 0, w := 0 }
  { trianglePrimitive := z, normalPrim := z, uvPrim := z, tangentPrim := z, biTangentPrim := z }

/-- The identity matrix. -/
def identityMatrix : Matrix4 := fun i j => if i = j then 1 else 0

/-- Header operations for a model placed at the origin of the world, with a
shader whose combined matrix is the identity: positions pass unchanged, and
`normalized` leaves its receiver as it is. -/
def identityExt : Externals :=
  { matMultVec := fun _ v => v
    inverse := fun m => m
    normalizedReceiver := fun v => v
    normalizedResult := fun v => v
    vertex := fun position _ _ _ _ _ _ => position }

/-- As `identityExt`, with a shader whose projection gives every vertex the
clip coordinate `w = -1` (geometry behind the eye). -/
def behindExt : Externals :=
  { identityExt with vertex := fun position _ _ _ _ _ _ => { position with w := -1 } }

/-- As `identityExt`, with a shader whose projection gives every vertex the
clip coordinate `w = 0` (geometry in the plane of the eye). -/
def eyePlaneExt : Externals :=
  { identityExt with vertex := fun position _ _ _ _ _ _ => { position with w := 0 } }

/-- A camera on the z axis, five units in front of the origin. -/
def frontCamera : Camera := { position := { x := 0, y := 0, z := 5, w := 1 } }

/-- A mesh of one face over the three given positions, its normal along +z. -/
def oneFaceMesh (a b c : Vector3f) : Mesh :=
  let attr := vectorOf [a, b, c]
  { numFaces := 1
    vertexIndices := indicesOf [{ d0 := 0, d1 := 1, d2 := 2 }]
    textureIndices := indicesOf [{ d0 := 0, d1 := 1, d2 := 2 }]
    normalsIndices := indicesOf [{ d0 := 0, d1 := 1, d2 := 2 }]
    fNormals := vectorOf [{ x := 0, y := 0, z := 1, w := 1 }]
    vertices := attr
    texels := attr
    normals := attr
    tangents := attr
    biTangents := attr }

/-- A face that lies wholly to the right of the frustum: `x > w` at each vertex. -/
def farRightModel : Model :=
  { mesh := oneFaceMesh { x := 3, y := 0, z := 0, w := 1 } { x := 4, y := 1, z := 0, w := 1 }
      { x := 5, y := 0, z := 1, w := 1 }
    modelMatrix := identityMatrix }

/-- A face turned to the camera, around the origin. -/
def unitModel : Model :=
  { mesh := oneFaceMesh { x := 0, y := 0, z := 0, w := 1 } { x := 1, y := 0, z := 0, w := 1 }
      { x := 0, y := 1, z := 0, w := 1 }
    modelMatrix := identityMatrix }

/-- A face turned to the camera whose positions have negative coordinates. -/
def negativeModel : Model :=
  { mesh := oneFaceMesh { x := -1, y := -1, z := -1, w := 1 } { x := -2, y := -1, z := -1, w := 1 }
      { x := -1, y := -2, z := -1, w := 1 }
    modelMatrix := identityMatrix }

/-- A renderer before `startUp`. -/
def freshRenderer : Renderer :=
  { startUpComplete := false, zBuffer := none, pixelBuffer := none, mCamera := none }

/-- A free store that refuses the first request. -/
def exhaustedHeap : Heap :=
  { requests := [false], floatJunk := fun _ => 0, uintJunk := fun _ => 0 }

/-- A free store that grants every request. -/
def ampleHeap : Heap :=
  { requests := [], floatJunk := fun _ => 7, uintJunk := fun _ => 9 }

/-- A renderer after `startUp(2, 2)` and some drawing: both buffers hold
values left by earlier frames. -/
def usedRenderer : Renderer :=
  { startUpComplete := true
    zBuffer := some { mWidth := 2, mHeight := 2, buffer := [1/2, 3, 0, 1/4] }
    pixelBuffer := some { mWidth := 2, mHeight := 2, buffer := [255, 0, 16, 7] }
    mCamera := some frontCamera }

/-! ## Lemmas on clipTriangles -/

theorem chainedLe_iff (a b c : ℚ) :
    chainedLe a b c = true ↔ (a ≤ b ∧ 1 ≤ c) ∨ (b < a ∧ 0 ≤ c) := by
  unfold chainedLe boolToFloat
  by_cases h : a ≤ b
  · have h2 : ¬ b < a := not_lt.mpr h
    simp [h, h2]
  · have h2 : b < a := not_le.mp h
    simp [h, h2]

theorem inside_iff (v : Vector3f) :
    inside v = true ↔
      (1 ≤ v.w ∨ (0 ≤ v.w ∧ v.w < 1 ∧ v.x < -v.w ∧ v.y < -v.w ∧ v.z < 0)) := by
  unfold inside
  simp only [Bool.and_eq_true, chainedLe_iff]
  constructor
  · rintro ⟨⟨hx, hy⟩, hz⟩
    by_cases hw : 1 ≤ v.w
    · exact Or.inl hw
    · right
      rcases hx with ⟨_, h⟩ | ⟨hx, h0⟩
      · exact absurd h hw
      rcases hy with ⟨_, h⟩ | ⟨hy, _⟩
      · exact absurd h hw
      rcases hz with ⟨_, h⟩ | ⟨hz, _⟩
      · exact absurd h hw
      exact ⟨h0, not_le.mp hw, hx, hy, hz⟩
  · rintro (hw | ⟨h0, _, hx, hy, hz⟩)
    · have h0 : (0 : ℚ) ≤ v.w := le_trans zero_le_one hw
      refine ⟨⟨?_, ?_⟩, ?_⟩
      · rcases le_or_lt (-v.w) v.x with h | h
        · exact Or.inl ⟨h, hw⟩
        · exact Or.inr ⟨h, h0⟩
      · rcases le_or_lt (-v.w) v.y with h | h
        · exact Or.inl ⟨h, hw⟩
        · exact Or.inr ⟨h, h0⟩
      · rcases le_or_lt 0 v.z with h | h
        · exact Or.inl ⟨h, hw⟩
        · exact Or.inr ⟨h, h0⟩
    · exact ⟨⟨Or.inr ⟨hx, h0⟩, Or.inr ⟨hy, h0⟩⟩, Or.inr ⟨hz, h0⟩⟩

theorem clipTriangles_iff (t : Triangle) :
    clipTriangles t = true ↔
      (inside t.v0 = false ∧ inside t.v1 = false ∧ inside t.v2 = false) := by
  unfold clipTriangles
  cases h0 : inside t.v0 <;> cases h1 : inside t.v1 <;> cases h2 : inside t.v2 <;>
    simp [List.foldl, clipStep, Triangle.get, h0, h1, h2]


theorem inside_of_one_le_w (v : Vector3f) (h : 1 ≤ v.w) : inside v = true :=
  (inside_iff v).mpr (Or.inl h)

theorem inside_eq_false_of_w_neg (v : Vector3f) (h : v.w < 0) : inside v = false := by
  cases hi : inside v
  · rfl
  · rcases (inside_iff v).mp hi with h1 | ⟨h0, _⟩
    · exact absurd (lt_of_lt_of_le h (le_trans zero_le_one h1)) (lt_irrefl _)
    · exact absurd (lt_of_lt_of_le h h0) (lt_irrefl _)

/-! ## Lemmas on the three-element loops -/

theorem buildTri_eq (index : Vector3i) (primitive : Triangle) (vals : StdVector Vector3f) :
    buildTri index primitive vals =
      { v0 := vals.subscript index.d0
        v1 := vals.subscript index.d1
        v2 := vals.subscript index.d2 } := rfl

theorem Triangle.forall_get (t : Triangle) (P : Vector3f → Prop) :
    (∀ i : Fin 3, P (t.get i)) ↔ (P t.v0 ∧ P t.v1 ∧ P t.v2) := by
  constructor
  · intro h
    exact ⟨h 0, h 1, h 2⟩
  · rintro ⟨h0, h1, h2⟩ i
    fin_cases i
    · exact h0
    · exact h1
    · exact h2

theorem subscript_of_valid {α : Type} (v : StdVector α) (i : Int) (h : v.validIndex i) :
    v.elems[i.toNat]? = some (v.subscript i) := by
  obtain ⟨h0, h1⟩ := h
  have hlt : i.toNat < v.elems.length := by
    unfold StdVector.size at h1
    omega
  simp [StdVector.subscript, h0, List.getElem?_eq_getElem hlt]

theorem faceStep_drawn_of_clipped (ext : Externals) (camera : Camera) (mesh : Mesh)
    (worldToObject : Matrix4) (lightDir : Vector3f) (st : DrawState) (j : Int)
    (h : clipTriangles (applyVertexShader ext lightDir (gather mesh st.scratch j)) = true) :
    (faceStep ext camera mesh worldToObject lightDir st j).drawn = st.drawn := by
  unfold faceStep
  simp only [h, if_true]
  split <;> rfl

/-- C10: the vertex test that `clipTriangles` computes, each chained comparison
being `((a <= b) <= c)`: a vertex counts as inside exactly when `w ≥ 1`, or
`0 ≤ w < 1` with `x < -w`, `y < -w` and `z < 0`; hence a triangle with a vertex
of `w ≥ 1` is never discarded, whatever its coordinates. -/
theorem inside_computed_test (v : Vector3f) :
    (inside v = true ↔
      (1 ≤ v.w ∨ (0 ≤ v.w ∧ v.w < 1 ∧ v.x < -v.w ∧ v.y < -v.w ∧ v.z < 0)))
    ∧ (∀ (t : Triangle) (i : Fin 3), 1 ≤ (t.get i).w → clipTriangles t = false) := by
  refine ⟨inside_iff v, ?_⟩
  intro t i hw
  have hin : inside (t.get i) = true := inside_of_one_le_w _ hw
  cases hc : clipTriangles t
  · rfl
  · obtain ⟨h0, h1, h2⟩ := (clipTriangles_iff t).mp hc
    fin_cases i
    · exact absurd hin (by simp [Triangle.get, h0])
    · exact absurd hin (by simp [Triangle.get, h1])
    · exact absurd hin (by simp [Triangle.get, h2])

/-- C1, evaluated on the code: the triangle whose three vertices are
`(5, 0, 0, 1)` has every vertex outside the frustum of the specification
(`x > w`), and `clipTriangles` returns false for it: the triangle is kept. In
the other direction, the triangle whose three vertices are `(0, 0, 1/4, 1/2)`
has every vertex inside that frustum, and `clipTriangles` returns true for it. -/
theorem clipTriangles_keeps_outside_triangle :
    (∀ i : Fin 3,
      insideFrustumSpec ((Triangle.const { x := 5, y := 0, z := 0, w := 1 }).get i) = false)
    ∧ clipTriangles (Triangle.const { x := 5, y := 0, z := 0, w := 1 }) = false
    ∧ (∀ i : Fin 3,
      insideFrustumSpec ((Triangle.const { x := 0, y := 0, z := 1/4, w := 1/2 }).get i) = true)
    ∧ clipTriangles (Triangle.const { x := 0, y := 0, z := 1/4, w := 1/2 }) = true := by
  with_unfolding_all decide

/-- C2, evaluated on the code: the one face of `farRightModel` has `x > w` at its
three vertices once shaded, `clipTriangles` returns false for it, and
`drawTriangularMesh` hands it, divided, to `Rasterizer::drawTriangles`. -/
theorem farRight_face_reaches_rasterizer :
    (∀ i : Fin 3,
      ((applyVertexShader identityExt { x := 1, y := 0, z := 0, w := 1 }
          (gather farRightModel.mesh zeroScratch 0)).get i).w
        < ((applyVertexShader identityExt { x := 1, y := 0, z := 0, w := 1 }
          (gather farRightModel.mesh zeroScratch 0)).get i).x)
    ∧ clipTriangles (applyVertexShader identityExt { x := 1, y := 0, z := 0, w := 1 }
          (gather farRightModel.mesh zeroScratch 0)) = false
    ∧ (drawTriangularMesh identityExt frontCamera farRightModel zeroScratch).drawn =
        [{ v0 := { x := 3, y := 0, z := 0, w := 1 }
           v1 := { x := 4, y := 1, z := 0, w := 1 }
           v2 := { x := 5, y := 0, z := 1, w := 1 } }] := by
  with_unfolding_all decide

/-- A triangle whose three clip-space vertices all have `w < 0` is discarded by
`clipTriangles`, and a face whose shaded vertices are such adds no call of the
rasterizer: `perspectiveDivide` is not reached for it. -/
theorem clipTriangles_of_w_neg (t : Triangle) (hw : ∀ i : Fin 3, (t.get i).w < 0) :
    clipTriangles t = true
    ∧ ∀ (ext : Externals) (camera : Camera) (mesh : Mesh) (worldToObject : Matrix4)
        (lightDir : Vector3f) (st : DrawState) (j : Int),
        applyVertexShader ext lightDir (gather mesh st.scratch j) = t →
        (faceStep ext camera mesh worldToObject lightDir st j).drawn = st.drawn := by
  have hc : clipTriangles t = true := by
    obtain ⟨h0, h1, h2⟩ := (Triangle.forall_get t (fun v => v.w < 0)).mp hw
    exact (clipTriangles_iff t).mpr
      ⟨inside_eq_false_of_w_neg _ h0, inside_eq_false_of_w_neg _ h1,
        inside_eq_false_of_w_neg _ h2⟩
  refine ⟨hc, ?_⟩
  intro ext camera mesh worldToObject lightDir st j ht
  exact faceStep_drawn_of_clipped ext camera mesh worldToObject lightDir st j (ht ▸ hc)

/-- A vertex with `w ≤ 0` that the computed test counts as inside has `w = 0`
and negative coordinates, and the frustum test of the specification puts it
outside. -/
theorem inside_w_nonpos_outside_spec (v : Vector3f) (hw : v.w ≤ 0)
    (hi : inside v = true) :
    v.w = 0 ∧ v.x < 0 ∧ v.y < 0 ∧ v.z < 0 ∧ insideFrustumSpec v = false := by
  rcases (inside_iff v).mp hi with h1 | ⟨h0, _, hx, hy, hz⟩
  · exact absurd (le_trans h1 hw) (by norm_num)
  · have hw0 : v.w = 0 := le_antisymm hw h0
    rw [hw0, neg_zero] at hx hy
    refine ⟨hw0, hx, hy, hz, ?_⟩
    unfold insideFrustumSpec
    rw [decide_eq_false_iff_not]
    rintro ⟨h, _⟩
    rw [hw0, neg_zero] at h
    exact absurd hx (not_lt.mpr h)

/-- Every triangle with `w ≤ 0` at its three vertices that `clipTriangles` keeps
has a vertex that the computed test counts as inside and that the frustum test
of the specification puts outside: such a triangle is kept only through the
chained comparisons. -/
theorem kept_w_nonpos_only_by_chained_comparison (t : Triangle)
    (hw : ∀ i : Fin 3, (t.get i).w ≤ 0) (hc : clipTriangles t = false) :
    ∃ i : Fin 3, inside (t.get i) = true ∧ insideFrustumSpec (t.get i) = false := by
  have hex : ∃ i : Fin 3, inside (t.get i) = true := by
    by_contra hne
    have hall : ∀ i : Fin 3, inside (t.get i) = false := by
      intro i
      cases hi : inside (t.get i)
      · rfl
      · exact absurd ⟨i, hi⟩ hne
    have := (clipTriangles_iff t).mpr ⟨hall 0, hall 1, hall 2⟩
    rw [hc] at this
    exact absurd this (by decide)
  obtain ⟨i, hi⟩ := hex
  exact ⟨i, hi, (inside_w_nonpos_outside_spec _ (hw i) hi).2.2.2.2⟩

/-- C6, evaluated on the code: the triangle whose three vertices are
`(-1, -1, -1, 0)` has `w ≤ 0` at every vertex, each vertex is outside the frustum
of the specification, and `clipTriangles` returns false for it; and the one face
of `negativeModel`, shaded to `w = 0` at its three vertices, passes through
`perspectiveDivide` and is handed to the rasterizer. -/
theorem w_zero_triangle_reaches_perspectiveDivide :
    (∀ i : Fin 3, ((Triangle.const { x := -1, y := -1, z := -1, w := 0 }).get i).w ≤ 0)
    ∧ (∀ i : Fin 3,
        insideFrustumSpec ((Triangle.const { x := -1, y := -1, z := -1, w := 0 }).get i) = false)
    ∧ clipTriangles (Triangle.const { x := -1, y := -1, z := -1, w := 0 }) = false
    ∧ (∀ i : Fin 3,
        ((applyVertexShader eyePlaneExt { x := 1, y := 0, z := 0, w := 1 }
            (gather negativeModel.mesh zeroScratch 0)).get i).w = 0)
    ∧ clipTriangles (applyVertexShader eyePlaneExt { x := 1, y := 0, z := 0, w := 1 }
          (gather negativeModel.mesh zeroScratch 0)) = false
    ∧ (drawTriangularMesh eyePlaneExt frontCamera negativeModel zeroScratch).drawn.length = 1 := by
  with_unfolding_all decide

/-! ## Backface culling -/

theorem dotProduct_scaled (n u u' : Vector3f) (k : ℚ)
    (hx : u'.x = k * u.x) (hy : u'.y = k * u.y) (hz : u'.z = k * u.z) :
    n.dotProduct u' = k * n.dotProduct u := by
  unfold Vector3f.dotProduct
  rw [hx, hy, hz]
  ring

theorem scaled_nonpos_iff (k d : ℚ) (hk : 0 < k) : k * d ≤ 0 ↔ d ≤ 0 := by
  constructor
  · intro h
    by_contra hd
    have hd' : 0 < d := not_le.mp hd
    exact absurd (mul_pos hk hd') (not_lt.mpr h)
  · intro h
    exact mul_nonpos_of_nonneg_of_nonpos (le_of_lt hk) h

/-- C3: `backFaceCulling` returns true exactly when
`dot(n, W*cameraPosition - v) ≤ 0`, for every normal `n`, vertex `v` and matrix
`W`; so a triangle with `dot = 0` is culled and one with `dot > 0` is kept.
The call `viewDir.normalized()` sits between the difference and the dot
product; what it leaves in `viewDir` is taken to be `viewDir` scaled by a
positive factor (1 when the call changes nothing). -/
theorem backFaceCulling_iff_dot_nonpos (ext : Externals) (camera : Camera)
    (n v : Vector3f) (W : Matrix4)
    (hnorm : ∃ k : ℚ, 0 < k
      ∧ (ext.normalizedReceiver ((ext.matMultVec W camera.position).sub v)).x
          = k * ((ext.matMultVec W camera.position).sub v).x
      ∧ (ext.normalizedReceiver ((ext.matMultVec W camera.position).sub v)).y
          = k * ((ext.matMultVec W camera.position).sub v).y
      ∧ (ext.normalizedReceiver ((ext.matMultVec W camera.position).sub v)).z
          = k * ((ext.matMultVec W camera.position).sub v).z) :
    (backFaceCulling ext camera n v W = true ↔
      n.dotProduct ((ext.matMultVec W camera.position).sub v) ≤ 0)
    ∧ (n.dotProduct ((ext.matMultVec W camera.position).sub v) = 0 →
        backFaceCulling ext camera n v W = true)
    ∧ (0 < n.dotProduct ((ext.matMultVec W camera.position).sub v) →
        backFaceCulling ext camera n v W = false) := by
  obtain ⟨k, hk, hx, hy, hz⟩ := hnorm
  have key : backFaceCulling ext camera n v W = true ↔
      n.dotProduct ((ext.matMultVec W camera.position).sub v) ≤ 0 := by
    unfold backFaceCulling
    simp only [decide_eq_true_eq]
    rw [dotProduct_scaled n _ _ k hx hy hz]
    exact scaled_nonpos_iff k _ hk
  refine ⟨key, ?_, ?_⟩
  · intro h0
    exact key.mpr (le_of_eq h0)
  · intro hpos
    cases hb : backFaceCulling ext camera n v W
    · rfl
    · exact absurd (key.mp hb) (not_le.mpr hpos)

/-- Witness of `backFaceCulling_iff_dot_nonpos`: the camera at `(0, 0, 5)`, the
normal `(0, 0, 1)` and the vertex `(3, 0, 0)`, with a `normalized` that leaves
its receiver unchanged; the dot product is 5 and the face is kept. -/
theorem backFaceCulling_iff_dot_nonpos_witness :
    backFaceCulling identityExt frontCamera { x := 0, y := 0, z := 1, w := 1 }
      { x := 3, y := 0, z := 0, w := 1 } identityMatrix = false :=
  (backFaceCulling_iff_dot_nonpos identityExt frontCamera { x := 0, y := 0, z := 1, w := 1 }
    { x := 3, y := 0, z := 0, w := 1 } identityMatrix
    ⟨1, by decide, by simp [identityExt], by simp [identityExt],
      by simp [identityExt]⟩).2.2
    (by with_unfolding_all decide)

/-! ## The face counter -/

theorem faceStep_count (ext : Externals) (camera : Camera) (mesh : Mesh)
    (worldToObject : Matrix4) (lightDir : Vector3f) (st : DrawState) (j : Int) :
    (faceStep ext camera mesh worldToObject lightDir st j).count =
      if backFaceCulling ext camera (mesh.fNormals.subscript j)
          (gather mesh st.scratch j).trianglePrimitive.v0 worldToObject
      then st.count else st.count + 1 := by
  unfold faceStep
  simp only
  split
  · rfl
  · split <;> rfl

/-- C4, evaluated on the code: for the one face of `unitModel` drawn with a
shader that puts every vertex at `w = -1`, the face passes the backface test and
is discarded by `clipTriangles`; the counter printed at the end is 1 and no
triangle has been handed to `Rasterizer::drawTriangles`. -/
theorem count_includes_clipped_face :
    (drawTriangularMesh behindExt frontCamera unitModel zeroScratch).count = 1
    ∧ (drawTriangularMesh behindExt frontCamera unitModel zeroScratch).drawn = [] := by
  with_unfolding_all decide

/-! ## buildTri -/

/-- C5, the claim as stated fails: with the index triple `(0, 0, 7)` and an
array of one element, index 7 is no position of the array, the gathering step of
the specification fails with `IndexOutOfRange`, and `buildTri` returns a
primitive all the same, its third vertex being what the unchecked read found. -/
theorem buildTri_out_of_range_yields_value :
    ¬ (vectorOf [{ x := 1, y := 2, z := 3, w := 1 }]).validIndex 7
    ∧ buildTriSpec { d0 := 0, d1 := 0, d2 := 7 } (vectorOf [{ x := 1, y := 2, z := 3, w := 1 }])
        = .error .IndexOutOfRange
    ∧ buildTri { d0 := 0, d1 := 0, d2 := 7 } zeroScratch.trianglePrimitive
        (vectorOf [{ x := 1, y := 2, z := 3, w := 1 }])
        = { v0 := { x := 1, y := 2, z := 3, w := 1 }
            v1 := { x := 1, y := 2, z := 3, w := 1 }
            v2 := { x := 0, y := 0, z := 0, w := 0 } } := by
  refine ⟨by decide, by rfl, by decide⟩

/-- C5, amended: when the three indices are valid positions of the array,
`buildTri` writes `primitive[i] = vals[index[i]]` for `i = 0, 1, 2`, which is the
value the gathering step of the specification yields; the code checks no bound
and reports no error. -/
theorem buildTri_of_valid_indices (index : Vector3i) (primitive : Triangle)
    (vals : StdVector Vector3f)
    (h : ∀ i : Fin 3, vals.validIndex (index.data i)) :
    buildTriSpec index vals = .ok (buildTri index primitive vals)
    ∧ ∀ i : Fin 3,
        vals.elems[(index.data i).toNat]? = some ((buildTri index primitive vals).get i) := by
  have h0 : vals.validIndex index.d0 := h 0
  have h1 : vals.validIndex index.d1 := h 1
  have h2 : vals.validIndex index.d2 := h 2
  constructor
  · unfold buildTriSpec
    rw [if_pos ⟨h0, h1, h2⟩, buildTri_eq]
  · intro i
    rw [buildTri_eq]
    fin_cases i
    · exact subscript_of_valid vals _ h0
    · exact subscript_of_valid vals _ h1
    · exact subscript_of_valid vals _ h2

/-- Witness of `buildTri_of_valid_indices`: the index triple `(1, 0, 1)` into an
array of two elements. -/
theorem buildTri_of_valid_indices_witness :
    (buildTri { d0 := 1, d1 := 0, d2 := 1 } zeroScratch.trianglePrimitive
        (vectorOf [{ x := 1, y := 2, z := 3, w := 1 }, { x := 4, y := 5, z := 6, w := 1 }])).get 0
      = { x := 4, y := 5, z := 6, w := 1 } := by
  have h := (buildTri_of_valid_indices { d0 := 1, d1 := 0, d2 := 1 }
    zeroScratch.trianglePrimitive
    (vectorOf [{ x := 1, y := 2, z := 3, w := 1 }, { x := 4, y := 5, z := 6, w := 1 }])
    (by decide)).2 0
  exact (Option.some.inj h).symm

/-! ## Perspective divide -/

theorem newBuffer_isSome {α : Type} (heap heap' : Heap) (w h pixelCount : Int)
    (junk : Nat → α) (b : Option (Buffer α))
    (hb : newBuffer heap w h pixelCount junk = .ok (b, heap')) : b.isSome = true := by
  unfold newBuffer at hb
  cases h1 : heap.allocate with
  | error e => simp [h1, bind, Except.bind] at hb
  | ok heap1 =>
    cases h2 : newArray heap1 pixelCount junk with
    | error e => simp [h1, h2, bind, Except.bind] at hb
    | ok p =>
      simp only [h1, h2, bind, Except.bind, pure, Except.pure, Except.ok.injEq,
        Prod.mk.injEq] at hb
      rw [← hb.1]
      rfl

/-- The `success = false` branches of `createBuffers` are never taken: whenever
the function returns, it returns true. -/
theorem createBuffers_returns_true (r r' : Renderer) (w h : Int) (heap heap' : Heap)
    (ok : Bool) (hr : createBuffers r w h heap = .ok (ok, r', heap')) : ok = true := by
  unfold createBuffers at hr
  cases h1 : newBuffer heap w h (w * h) heap.floatJunk with
  | error e => simp [h1, bind, Except.bind] at hr
  | ok p1 =>
    obtain ⟨zb, heap1⟩ := p1
    have hz := newBuffer_isSome heap heap1 w h (w * h) heap.floatJunk zb h1
    cases h2 : newBuffer heap1 w h (w * h) heap1.uintJunk with
    | error e =>
      simp [h1, h2, bind, Except.bind, pure, Except.pure, Option.isNone_iff_eq_none,
        Option.isSome_iff_ne_none.mp hz] at hr
    | ok p2 =>
      obtain ⟨pb, heap2⟩ := p2
      have hp := newBuffer_isSome heap1 heap2 w h (w * h) heap1.uintJunk pb h2
      simp [h1, h2, bind, Except.bind, pure, Except.pure, Option.isNone_iff_eq_none,
        Option.isSome_iff_ne_none.mp hz, Option.isSome_iff_ne_none.mp hp] at hr
      exact hr.1

theorem startUp_of_createBuffers_ok (r r' : Renderer) (w h : Int) (heap heap' : Heap)
    (ok : Bool) (hr : createBuffers r w h heap = .ok (ok, r', heap')) :
    startUp r w h heap =
      .ok (ok, if ok then { r' with startUpComplete := true } else r', heap') := by
  unfold startUp
  cases ok <;> simp [hr, bind, Except.bind, pure, Except.pure]

theorem startUp_of_createBuffers_error (r : Renderer) (w h : Int) (heap : Heap)
    (e : CppException) (hr : createBuffers r w h heap = .error e) :
    startUp r w h heap = .error e := by
  unfold startUp
  simp [hr, bind, Except.bind]

/-- C8, evaluated on the code: when the free store refuses the first
allocation, `createBuffers(4, 4)` does not return false, it is left by
`std::bad_alloc`, and so is `startUp(4, 4)`; with a free store that grants every
request both return true and `startUp` sets `startUpComplete`. -/
theorem createBuffers_throws_on_failed_allocation :
    createBuffers freshRenderer 4 4 exhaustedHeap = .error .bad_alloc
    ∧ startUp freshRenderer 4 4 exhaustedHeap = .error .bad_alloc
    ∧ (createBuffers freshRenderer 4 4 ampleHeap).map (fun p => p.1) = .ok true
    ∧ (startUp freshRenderer 4 4 ampleHeap).map (fun p => (p.1, p.2.1.startUpComplete))
        = .ok (true, true) := by
  refine ⟨rfl, rfl, rfl, rfl⟩

/-! ## clearBuffers -/

theorem Buffer.read_clear {α : Type} (b : Buffer α) (clearValue : α) (x y : Int)
    (hlen : b.buffer.length = (b.mWidth * b.mHeight).toNat)
    (hx0 : 0 ≤ x) (hx : x < b.mWidth) (hy0 : 0 ≤ y) (hy : y < b.mHeight) :
    (b.clear clearValue).read x y = some clearValue := by
  have hidx : y * b.mWidth + x < b.mWidth * b.mHeight := by
    have h1 : (y + 1) * b.mWidth ≤ b.mHeight * b.mWidth :=
      Int.mul_le_mul_of_nonneg_right (by omega) (by omega)
    nlinarith
  have hnn : 0 ≤ y * b.mWidth + x := by
    have : 0 ≤ y * b.mWidth := Int.mul_nonneg hy0 (by omega)
    omega
  have hlt : (y * b.mWidth + x).toNat < b.buffer.length := by
    rw [hlen]
    omega
  unfold Buffer.read Buffer.clear
  simp only [hx0, hx, hy0, hy, and_self, if_true, List.getElem?_map]
  rw [List.getElem?_eq_getElem hlt]
  rfl

/-- C9: for buffers of any dimensions and any contents, `clearBuffers()`
succeeds and afterwards the read of any pixel position gives the far-sentinel
depth from the z-buffer and the background colour from the pixel buffer; both
buffers are cleared (each element of either array holds the clear value) and
their dimensions are unchanged. -/
theorem clearBuffers_then_read (farSentinel : ℚ) (background : Nat) (r : Renderer)
    (zb : Buffer ℚ) (pb : Buffer Nat)
    (hz : r.zBuffer = some zb) (hp : r.pixelBuffer = some pb)
    (hzlen : zb.buffer.length = (zb.mWidth * zb.mHeight).toNat)
    (hplen : pb.buffer.length = (pb.mWidth * pb.mHeight).toNat) :
    ∃ (r' : Renderer) (zb' : Buffer ℚ) (pb' : Buffer Nat),
      clearBuffers farSentinel background r = some r'
      ∧ r'.zBuffer = some zb' ∧ r'.pixelBuffer = some pb'
      ∧ zb'.mWidth = zb.mWidth ∧ zb'.mHeight = zb.mHeight
      ∧ pb'.mWidth = pb.mWidth ∧ pb'.mHeight = pb.mHeight
      ∧ zb'.buffer.length = zb.buffer.length ∧ pb'.buffer.length = pb.buffer.length
      ∧ (∀ x y : Int, 0 ≤ x → x < zb.mWidth → 0 ≤ y → y < zb.mHeight →
          zb'.read x y = some farSentinel)
      ∧ (∀ x y : Int, 0 ≤ x → x < pb.mWidth → 0 ≤ y → y < pb.mHeight →
          pb'.read x y = some background)
      ∧ (∀ v ∈ zb'.buffer, v = farSentinel)
      ∧ (∀ v ∈ pb'.buffer, v = background) := by
  refine ⟨{ r with zBuffer := some (zb.clear farSentinel),
                   pixelBuffer := some (pb.clear background) },
    zb.clear farSentinel, pb.clear background, ?_, rfl, rfl, rfl, rfl, rfl, rfl, ?_, ?_,
    ?_, ?_, ?_, ?_⟩
  · unfold clearBuffers
    simp [hz, hp]
  · simp [Buffer.clear]
  · simp [Buffer.clear]
  · intro x y hx0 hx hy0 hy
    exact Buffer.read_clear zb farSentinel x y hzlen hx0 hx hy0 hy
  · intro x y hx0 hx hy0 hy
    exact Buffer.read_clear pb background x y hplen hx0 hx hy0 hy
  · intro v hv
    simp only [Buffer.clear, List.mem_map] at hv
    obtain ⟨_, _, rfl⟩ := hv
    rfl
  · intro v hv
    simp only [Buffer.clear, List.mem_map] at hv
    obtain ⟨_, _, rfl⟩ := hv
    rfl

/-- Witness of `clearBuffers_then_read`: the 2×2 buffers of `usedRenderer`,
cleared to depth 1000 and colour 13; the call succeeds. -/
theorem clearBuffers_then_read_witness :
    ∃ (r' : Renderer) (zb' : Buffer ℚ) (pb' : Buffer Nat),
      clearBuffers 1000 13 usedRenderer = some r'
      ∧ r'.zBuffer = some zb' ∧ r'.pixelBuffer = some pb'
      ∧ zb'.read 1 1 = some 1000 ∧ pb'.read 1 1 = some 13 := by
  obtain ⟨r', zb', pb', h1, h2, h3, _, _, _, _, _, _, hzr, hpr, _, _⟩ :=
    clearBuffers_then_read 1000 13 usedRenderer
      { mWidth := 2, mHeight := 2, buffer := [1/2, 3, 0, 1/4] }
      { mWidth := 2, mHeight := 2, buffer := [255, 0, 16, 7] } rfl rfl rfl rfl
  exact ⟨r', zb', pb', h1, h2, h3,
    hzr 1 1 (by decide) (by decide) (by decide) (by decide),
    hpr 1 1 (by decide) (by decide) (by decide) (by decide)⟩

end SoftwareRenderer